import Mathlib

/-!
Formal model of the Illyria stop-and-wait ARQ link-layer engine (src/lib.rs).

The Rust code is shallow-embedded as follows:

* bytes are natural numbers (every wire byte is a `u8`, so concrete values
  stay below 256; arithmetic that the source performs on `u8`/`u16` values is
  mirrored with explicit masking where the source casts);
* the two `heapless::Vec<u8, LEN>` buffers become `List Nat` together with an
  explicit capacity field in the state record (the Rust capacity is the type
  parameter `TXLEN` / `RXLEN`);
* the external writer and reader handles are factored out: `run_tx` takes a
  flag saying whether the single `writer.write` of that step succeeds (on
  `WouldBlock`/error the source returns before the state assignment, so the
  state is unchanged) and returns the bytes actually written; `run_rx` takes
  the byte delivered by the single `reader.read` of that step;
* `rx_buffer.push(..).unwrap()` can panic when the vector is full; a panic is
  modelled by `run_rx` returning `none`;
* `postcard::to_slice` of a message whose serialised form is `msgBytes`
  succeeds on a slice exactly when `msgBytes` fits, writing those bytes; on
  failure the slice contents are unspecified and only the buffer length is
  relevant to any theorem below.
-/

/-- The colour tag carried by I-frames to detect duplicates
(src/lib.rs `enum Colour`). -/
inductive Colour
  | Red
  | Blue
  | Purple
deriving DecidableEq, Repr

/-- src/lib.rs `Colour::next`. -/
def Colour.next : Colour → Colour
  | .Red => .Blue
  | .Blue => .Red
  | .Purple => .Blue

/-- src/lib.rs `Colour::matches`. -/
def Colour.matches (a incoming : Colour) : Bool :=
  (a == Colour.Purple) || (incoming == Colour.Purple) || (a == incoming)

/-- One shift-and-conditional-xor round of the reflected CRC-16 with
polynomial 0x1021 (reflected: 0x8408). -/
def crcRound (crc : Nat) : Nat :=
  if crc % 2 == 1 then (crc / 2) ^^^ 0x8408 else crc / 2

/-- Absorb one byte into a reflected CRC-16/X.25 state. -/
def crcUpdate (crc byte : Nat) : Nat :=
  crcRound (crcRound (crcRound (crcRound (crcRound (crcRound (crcRound (crcRound (crc ^^^ byte))))))))

/-- Model of the external `crc::crc16::checksum_x25` used by the source:
CRC-16/X.25 (polynomial 0x1021, initial value 0xFFFF, input and output
reflected, XOR-out 0xFFFF), as pinned down in the spec (section 4.1).  The
concrete values appearing in the repository tests (0x85C8 for [1, 1, 0],
0x3CF7 for [2, 0], 0x252F for [3, 0]) are reproduced by this definition. -/
def checksum_x25 (data : List Nat) : Nat :=
  (data.foldl crcUpdate 0xFFFF) ^^^ 0xFFFF

/-- src/lib.rs `Checksum::generate`. -/
def Checksum.generate (data : List Nat) : Nat :=
  checksum_x25 data

/-- src/lib.rs `Checksum::validate`: the stored 16-bit value equals a fresh
CRC over the data. -/
def Checksum.validate (c : Nat) (data : List Nat) : Bool :=
  checksum_x25 data == c

/-- src/lib.rs `Checksum::first_byte` (high byte, transmitted first). -/
def Checksum.first_byte (c : Nat) : Nat :=
  c >>> 8

/-- src/lib.rs `Checksum::second_byte` (low byte, the `as u8` cast). -/
def Checksum.second_byte (c : Nat) : Nat :=
  c % 256

/-- src/lib.rs `enum Payload`: what the TX machine is currently emitting. -/
inductive Payload
  | IFrame
  | SFrame (frame : List Nat)
deriving DecidableEq, Repr

/-- src/lib.rs `enum TxState`. -/
inductive TxState
  | Idle
  | SendingDelimiterStart (payload : Payload)
  | SendingCobsHeader (payload : Payload)
  | SendingPayload (payload : Payload) (sent : Nat)
  | SendingDelimiterEnd (payload : Payload)
  | WaitingForAckNack (num_polls : Nat)
deriving DecidableEq, Repr

/-- src/lib.rs `enum RxState`. -/
inductive RxState
  | WantFrameDelimiter
  | WantCobsHeader
  | WantFrameType (cobs : Nat)
  | WantLength (cobs : Nat) (frame : Nat)
  | WantPayload (cobs : Nat) (frame : Nat) (length : Nat)
  | WantChecksumFirst (cobs : Nat) (frame : Nat)
  | WantChecksumSecond (cobs : Nat) (frame : Nat) (csum_first : Nat)
deriving DecidableEq, Repr

/-- src/lib.rs `enum Error` (the payload-carrying variants drop their
payloads; `Postcard` stands for any error value of the external serialiser). -/
inductive Error
  | TransportWouldBlock
  | PacketInFlight
  | MessageTooLarge
  | Postcard
  | Writer
  | Reader
deriving DecidableEq, Repr

instance {ε α : Type} [DecidableEq ε] [DecidableEq α] : DecidableEq (Except ε α) := fun x y =>
  match x, y with
  | .ok a, .ok b =>
    if h : a = b then isTrue (congrArg _ h) else isFalse (fun he => h (Except.ok.inj he))
  | .error a, .error b =>
    if h : a = b then isTrue (congrArg _ h) else isFalse (fun he => h (Except.error.inj he))
  | .ok _, .error _ => isFalse Except.noConfusion
  | .error _, .ok _ => isFalse Except.noConfusion

/-- src/lib.rs `struct Illyria`, with the two `heapless` capacities
(`TXLEN`, `RXLEN`) made explicit fields. -/
structure Illyria where
  poll_limit : Nat
  tx_capacity : Nat
  rx_capacity : Nat
  tx_buffer : List Nat
  sframe_pending : Option (List Nat)
  rx_buffer : List Nat
  tx_state : TxState
  next_tx_colour : Colour
  rx_state : RxState
  rx_colour : Colour
deriving DecidableEq, Repr

def FRAME_TYPE_IDX : Nat := 0

def PAYLOAD_LENGTH_IDX : Nat := 1

def DATA_IDX : Nat := 2

/-- src/lib.rs `CHECKSUM_OVERHEAD`: the frame type and length bytes. -/
def CHECKSUM_OVERHEAD : Nat := 2

/-- src/lib.rs `FRAME_OVERHEAD`: checksum overhead plus two checksum bytes. -/
def FRAME_OVERHEAD : Nat := CHECKSUM_OVERHEAD + 2

def HEADER_RED_IFRAME : Nat := 0x21

def HEADER_BLUE_IFRAME : Nat := 0x11

def HEADER_PURPLE_IFRAME : Nat := 0x01

def HEADER_ACK : Nat := 0x02

def HEADER_NACK : Nat := 0x03

/-- src/lib.rs `SFRAME_ACK`: the manually encoded static ACK packet. -/
def SFRAME_ACK : List Nat := [HEADER_ACK, 0, 0x3C, 0xF7]

/-- src/lib.rs `SFRAME_NACK`: the manually encoded static NACK packet,
exactly as written in the source (bytes 0x3C, 0xF7). -/
def SFRAME_NACK : List Nat := [HEADER_NACK, 0, 0x3C, 0xF7]

/-- src/lib.rs `Illyria::new`. -/
def initIllyria (tx_cap rx_cap poll_limit : Nat) : Illyria :=
  { poll_limit := poll_limit
    tx_capacity := tx_cap
    rx_capacity := rx_cap
    tx_buffer := []
    sframe_pending := none
    rx_buffer := []
    tx_state := .Idle
    next_tx_colour := .Purple
    rx_state := .WantFrameDelimiter
    rx_colour := .Purple }

/-- `heapless::Vec::resize_default`: truncate to `n` or pad with zeros. -/
def resize_default (buf : List Nat) (n : Nat) : List Nat :=
  (buf ++ List.replicate (n - buf.length) 0).take n

/-- Helper for `cobs_find_zero`: scan with the running index, returning the
scan default (the slice length) when the slice is exhausted. -/
def cobs_find_zero_aux : List Nat → Nat → Nat → Nat
  | [], _, dflt => dflt
  | b :: rest, i, dflt =>
    if b == 0 then i
    else if i == 254 then 254
    else cobs_find_zero_aux rest (i + 1) dflt

/-- src/lib.rs `cobs_find_zero`: index of the first zero byte, capped at 254,
defaulting to the slice length when no zero exists. -/
def cobs_find_zero (source : List Nat) : Nat :=
  cobs_find_zero_aux source 0 source.length

/-- src/lib.rs `check_cobs`: COBS destuffing step on
(counter, wire byte), yielding (new counter, destuffed byte). -/
def check_cobs (cobs next_byte : Nat) : Nat × Nat :=
  if cobs == 1 then (next_byte, 0) else (cobs - 1, next_byte)

/-- The match arms of `send` that allow a new message to be accepted:
`Idle` and the four supervisory-frame sending states. -/
def sendAllowed : TxState → Bool
  | .Idle => true
  | .SendingDelimiterStart (.SFrame _) => true
  | .SendingCobsHeader (.SFrame _) => true
  | .SendingPayload (.SFrame _) _ => true
  | .SendingDelimiterEnd (.SFrame _) => true
  | _ => false

/-- States in which an I-frame is outstanding: buffered I-frame being
emitted, or awaiting ACK/NACK.  These are exactly the states not matched by
the accepting arms of `send`. -/
def iframeActive : TxState → Bool
  | .SendingDelimiterStart .IFrame => true
  | .SendingCobsHeader .IFrame => true
  | .SendingPayload .IFrame _ => true
  | .SendingDelimiterEnd .IFrame => true
  | .WaitingForAckNack _ => true
  | _ => false

def isWaiting : TxState → Bool
  | .WaitingForAckNack _ => true
  | _ => false

/-- src/lib.rs `send`.  `msgBytes` is the postcard serialisation of the
message; `to_slice` into the region `tx_buffer[DATA_IDX..usable]` succeeds
exactly when it fits. -/
def send (s : Illyria) (msgBytes : List Nat) : Illyria × Except Error Unit :=
  if s.tx_buffer.length != 0 then (s, .error .PacketInFlight)
  else if sendAllowed s.tx_state then
    let buf := resize_default s.tx_buffer s.tx_capacity
    let usable := buf.length - 2
    if msgBytes.length ≤ usable - DATA_IDX then
      let payload_len := msgBytes.length
      let header : Nat :=
        match s.next_tx_colour with
        | .Red => HEADER_RED_IFRAME
        | .Blue => HEADER_BLUE_IFRAME
        | .Purple => HEADER_PURPLE_IFRAME
      let body := header :: (payload_len % 256) :: msgBytes
      let checksum := Checksum.generate body
      ({ s with tx_buffer :=
          body ++ [Checksum.first_byte checksum, Checksum.second_byte checksum] },
       .ok ())
    else
      ({ s with tx_buffer := buf }, .error .Postcard)
  else (s, .error .PacketInFlight)

/-- src/lib.rs `reset`: force TX back to `Idle`, leaving everything else. -/
def reset (s : Illyria) : Illyria :=
  { s with tx_state := .Idle }

/-- src/lib.rs `run_tx`.  `writeOk` says whether the (at most one)
`writer.write` of this step succeeds; if it fails the source propagates the
error before the state assignment, so the state is returned unchanged and no
byte is emitted.  Result: new state, bytes written (zero or one), and the
`WaitingForAckNack` flag returned to the caller. -/
def run_tx (writeOk : Bool) (s : Illyria) : Illyria × List Nat × Bool :=
  match s.tx_state with
  | .Idle =>
    if s.tx_buffer.length != 0 then
      ({ s with tx_state := .SendingDelimiterStart .IFrame }, [], false)
    else
      match s.sframe_pending with
      | some frame =>
        ({ s with sframe_pending := none,
                  tx_state := .SendingDelimiterStart (.SFrame frame) }, [], false)
      | none => (s, [], false)
  | .SendingDelimiterStart payload =>
    if writeOk then ({ s with tx_state := .SendingCobsHeader payload }, [0], false)
    else (s, [], false)
  | .SendingCobsHeader payload =>
    let num :=
      match payload with
      | .IFrame => cobs_find_zero s.tx_buffer
      | .SFrame frame => cobs_find_zero frame
    if writeOk then
      ({ s with tx_state := .SendingPayload payload 0 }, [num + 1], false)
    else (s, [], false)
  | .SendingPayload payload sent =>
    let source :=
      match payload with
      | .IFrame => s.tx_buffer
      | .SFrame frame => frame
    let len := source.length
    -- the source indexes `source[sent]` directly; under the I-frame buffer
    -- invariant the index is in range, so the default never fires
    let b0 := source.getD sent 0
    let b := if b0 == 0 then cobs_find_zero (source.drop (sent + 1)) + 1 else b0
    if writeOk then
      if sent + 1 == len then
        ({ s with tx_state := .SendingDelimiterEnd payload }, [b], false)
      else
        ({ s with tx_state := .SendingPayload payload (sent + 1) }, [b], false)
    else (s, [], false)
  | .SendingDelimiterEnd payload =>
    if writeOk then
      match payload with
      | .IFrame => ({ s with tx_state := .WaitingForAckNack 0 }, [0], false)
      | .SFrame _ => ({ s with tx_state := .Idle }, [0], false)
    else (s, [], false)
  | .WaitingForAckNack num_polls =>
    if s.poll_limit ≤ num_polls then
      ({ s with tx_state := .SendingDelimiterStart .IFrame }, [], false)
    else
      ({ s with tx_state := .WaitingForAckNack (num_polls + 1) }, [], true)

/-- `rx_buffer.push(b).unwrap()`: `none` models the panic on a full vector. -/
def rx_push (s : Illyria) (b : Nat) : Option Illyria :=
  if s.rx_buffer.length < s.rx_capacity then
    some { s with rx_buffer := s.rx_buffer ++ [b] }
  else none

/-- The frame-dispatch part of src/lib.rs `run_rx` (the body of the
checksum-valid branch in `WantChecksumSecond`): act on a CRC-valid frame of
type byte `frame`. -/
def dispatch (s : Illyria) (frame : Nat) : Illyria :=
  if frame == HEADER_RED_IFRAME then
    let s := { s with sframe_pending := some SFRAME_ACK }
    if s.rx_colour.matches .Red then { s with rx_colour := Colour.next .Red } else s
  else if frame == HEADER_BLUE_IFRAME then
    let s := { s with sframe_pending := some SFRAME_ACK }
    if s.rx_colour.matches .Blue then { s with rx_colour := Colour.next .Blue } else s
  else if frame == HEADER_PURPLE_IFRAME then
    let s := { s with sframe_pending := some SFRAME_ACK }
    if s.rx_colour.matches .Purple then { s with rx_colour := Colour.next .Purple } else s
  else if frame == HEADER_ACK then
    match s.tx_state with
    | .WaitingForAckNack _ =>
      { s with next_tx_colour := s.next_tx_colour.next,
               tx_state := .Idle,
               tx_buffer := [] }
    | _ => s
  else if frame == HEADER_NACK then
    match s.tx_state with
    | .WaitingForAckNack _ => { s with tx_state := .Idle }
    | _ => s
  else s

/-- src/lib.rs `run_rx`, one step on the byte delivered by the reader.
`none` models the panic of an `unwrap`ed push onto a full `rx_buffer`. -/
def run_rx (s : Illyria) (next_byte : Nat) : Option Illyria :=
  if next_byte == 0 then
    some { s with rx_state := .WantCobsHeader }
  else
    match s.rx_state with
    | .WantFrameDelimiter => some s
    | .WantCobsHeader => some { s with rx_state := .WantFrameType next_byte }
    | .WantFrameType cobs =>
      let p := check_cobs cobs next_byte
      (rx_push s p.2).map fun s1 =>
        { s1 with rx_state := .WantLength p.1 p.2 }
    | .WantLength cobs frame =>
      let p := check_cobs cobs next_byte
      (rx_push s p.2).map fun s1 =>
        if p.2 == 0 then { s1 with rx_state := .WantChecksumFirst p.1 frame }
        else { s1 with rx_state := .WantPayload p.1 frame p.2 }
    | .WantPayload cobs frame length =>
      if s.rx_buffer.length == s.rx_capacity then
        some { s with rx_state := .WantFrameDelimiter }
      else
        let p := check_cobs cobs next_byte
        (rx_push s p.2).map fun s1 =>
          if s1.rx_buffer.length == length + CHECKSUM_OVERHEAD then
            { s1 with rx_state := .WantChecksumFirst p.1 frame }
          else
            { s1 with rx_state := .WantPayload p.1 frame length }
    | .WantChecksumFirst cobs frame =>
      let p := check_cobs cobs next_byte
      some { s with rx_state := .WantChecksumSecond p.1 frame p.2 }
    | .WantChecksumSecond cobs frame csum_first =>
      let p := check_cobs cobs next_byte
      let csum := (csum_first <<< 8) ||| p.2
      let s1 :=
        if Checksum.validate csum s.rx_buffer then dispatch s frame
        else { s with sframe_pending := some SFRAME_NACK }
      some { s1 with rx_buffer := [], rx_state := .WantFrameDelimiter }

/-- Feed a byte sequence to the receiver one `run_rx` step at a time,
stopping at a panic. -/
def run_rx_bytes : Illyria → List Nat → Option Illyria
  | s, [] => some s
  | s, b :: rest =>
    match run_rx s b with
    | none => none
    | some s1 => run_rx_bytes s1 rest

/-- Iterate `run_tx` with an always-ready writer, collecting written bytes. -/
def run_tx_steps : Nat → Illyria → Illyria × List Nat
  | 0, s => (s, [])
  | k + 1, s =>
    let r := run_tx true s
    let r2 := run_tx_steps k r.1
    (r2.1, r.2.1 ++ r2.2)

/-- The COBS-stuffed bytes of `buf` from index `sent` on (`fuel` counts the
remaining bytes): a zero byte is replaced by the distance to the next zero
plus one, exactly as the `SendingPayload` arm of `run_tx` computes it. -/
def stuffFrom (buf : List Nat) : Nat → Nat → List Nat
  | 0, _ => []
  | fuel + 1, sent =>
    (if buf.getD sent 0 == 0 then cobs_find_zero (buf.drop (sent + 1)) + 1
     else buf.getD sent 0) :: stuffFrom buf fuel (sent + 1)

/-- The complete wire image of one I-frame whose (unstuffed) frame bytes are
`buf`: start delimiter, COBS header, stuffed bytes, end delimiter. -/
def frameWire (buf : List Nat) : List Nat :=
  0 :: (cobs_find_zero buf + 1) :: (stuffFrom buf buf.length 0 ++ [0])

/-- The TX-side buffer invariant: whenever an I-frame is outstanding
(being emitted or awaiting ACK/NACK), the TX buffer is non-empty. -/
def TxInv (s : Illyria) : Prop :=
  iframeActive s.tx_state = true → s.tx_buffer ≠ []

/-- Claim C1 (code bug): what the code actually contains.  The ACK constant
is [0x02, 0x00, 0x3C, 0xF7] and its trailer is the big-endian CRC-16/X.25 of
its first two bytes, as claimed; but the NACK constant in the source is
[0x03, 0x00, 0x3C, 0xF7] — it carries the ACK frame's CRC.  The canonical
CRC-16/X.25 over [0x03, 0x00] is 0x252F, so the claimed constant
[0x03, 0x00, 0x25, 0x2F] differs from the source, and the source's own
receiver-side validation rejects the frame the source's NACK constant
encodes. -/
theorem c1_nack_constant_wrong_crc :
    SFRAME_ACK = [0x02, 0x00, 0x3C, 0xF7] ∧
    checksum_x25 [0x02, 0x00] = 0x3CF7 ∧
    SFRAME_NACK = [0x03, 0x00, 0x3C, 0xF7] ∧
    SFRAME_NACK ≠ [0x03, 0x00, 0x25, 0x2F] ∧
    checksum_x25 [0x03, 0x00] = 0x252F ∧
    Checksum.validate 0x3CF7 [0x03, 0x00] = false := by
  decide

/-- Claim C2 (amended): in every receive state, reading a 0x00 byte moves the
receiver to `WantCobsHeader` and leaves every other field — in particular the
RX buffer, which keeps any partially accumulated frame bytes — unchanged. -/
theorem c2_zero_resyncs_but_keeps_buffer (s : Illyria) :
    run_rx s 0 = some { s with rx_state := .WantCobsHeader } :=
  rfl

/-- Claim C2 counterexample: after a delimiter, COBS header 5, frame type 1
and length 10, the RX buffer holds the two partially accumulated frame bytes
[1, 10]; a 0x00 resync byte then moves the state to `WantCobsHeader` but does
NOT empty the RX buffer, contradicting the claim that no bytes of the partial
frame remain. -/
theorem c2_counterexample :
    (run_rx_bytes (initIllyria 66 66 10) [0, 5, 1, 10, 0]).map
        (fun s => (s.rx_state, s.rx_buffer)) =
      some (RxState.WantCobsHeader, [1, 10]) ∧
    [1, 10] ≠ ([] : List Nat) := by
  decide

/-- The malformed wire input that makes `run_rx` panic with the reference
capacity 66: a frame whose length byte (100) exceeds the buffer, so the
payload fills the RX buffer to capacity and the frame is dropped, then a
resync delimiter and the start of a new frame; the frame-type push
(`rx_buffer.push(..).unwrap()`) then hits a full buffer. -/
def c3Input : List Nat :=
  [0, 255, 1, 100] ++ List.replicate 64 7 ++ [9, 0, 5, 7]

/-- Claim C3 (code bug): the receive engine CAN panic on malformed wire
data.  Feeding `c3Input` to a freshly constructed engine with the reference
capacity 66 reaches the `WantFrameType` push with an already-full RX buffer
(`none` models the `unwrap` panic): the capacity check guards only the
`WantPayload` appends, not the `WantFrameType`/`WantLength` ones, and a
0x00 resync never empties the buffer. -/
theorem c3_rx_panics_on_malformed_input :
    run_rx_bytes (initIllyria 66 66 10) c3Input = none := by
  decide

/-- The wire image of a Purple I-frame with the one-byte payload 0x00
(frame bytes [0x01, 0x01, 0x00], CRC 0x85C8), as emitted by the source and
used in the repository's own tests. -/
def purpleWire : List Nat := [0, 3, 1, 1, 3, 0x85, 0xC8, 0]

/-- The wire image of a Red I-frame with the one-byte payload 0x00
(frame bytes [0x21, 0x01, 0x00], CRC 0x86F3). -/
def redWire : List Nat := [0, 3, 0x21, 1, 3, 0x86, 0xF3, 0]

/-- Claim C4 counterexample: the claim fails for colour Purple.  From a fresh
receiver (expected colour Purple) a valid Purple I-frame is accepted and the
expected colour advances to Blue; but an identical Purple I-frame still
MATCHES the new expected colour (`Colour::matches` treats an incoming Purple
as a wildcard), so the duplicate takes the acceptance branch again instead of
failing the matches check. -/
theorem c4_counterexample :
    (run_rx_bytes (initIllyria 66 66 10) purpleWire).map
        (fun s => (s.rx_colour, Colour.matches s.rx_colour .Purple)) =
      some (Colour.Blue, true) := by
  decide

/-- Claim C4 (amended): for the two alternating colours Red and Blue the
claim holds — once the expected RX colour has advanced past colour c, a
CRC-valid duplicate I-frame of colour c fails the matches check, leaves the
expected RX colour unchanged (no re-delivery), but still schedules an ACK.
(`dispatch` is the checksum-valid dispatch step of `run_rx`.)  For colour
Purple the duplicate matches the wildcard and is accepted again (see the
counterexample).  The two closing conjuncts replay the Red case on concrete
wire bytes end-to-end through `run_rx`. -/
theorem c4_duplicate_red_blue_dropped_but_acked (s : Illyria) :
    (s.rx_colour = Colour.next .Red →
      Colour.matches s.rx_colour .Red = false ∧
      (dispatch s HEADER_RED_IFRAME).rx_colour = s.rx_colour ∧
      (dispatch s HEADER_RED_IFRAME).sframe_pending = some SFRAME_ACK) ∧
    (s.rx_colour = Colour.next .Blue →
      Colour.matches s.rx_colour .Blue = false ∧
      (dispatch s HEADER_BLUE_IFRAME).rx_colour = s.rx_colour ∧
      (dispatch s HEADER_BLUE_IFRAME).sframe_pending = some SFRAME_ACK) ∧
    (run_rx_bytes { initIllyria 66 66 10 with rx_colour := .Red } redWire).map
        (fun s1 => s1.rx_colour) = some Colour.Blue ∧
    ((run_rx_bytes { initIllyria 66 66 10 with rx_colour := .Red } redWire).bind
        (fun s1 => run_rx_bytes s1 redWire)).map
        (fun s2 => (s2.rx_colour, s2.sframe_pending)) =
      some (Colour.Blue, some SFRAME_ACK) := by
  refine ⟨fun h => ?_, fun h => ?_, by decide, by decide⟩
  · simp [dispatch, Colour.matches, h, Colour.next, HEADER_RED_IFRAME,
      HEADER_BLUE_IFRAME, HEADER_PURPLE_IFRAME]
  · simp [dispatch, Colour.matches, h, Colour.next, HEADER_RED_IFRAME,
      HEADER_BLUE_IFRAME, HEADER_PURPLE_IFRAME]

def c4WitState : Illyria := { initIllyria 66 66 10 with rx_colour := .Blue }

/-- Witness for claim C4: the amended theorem applied at a receiver whose
expected colour has advanced past Red (to Blue). -/
theorem c4_witness :
    Colour.matches c4WitState.rx_colour Colour.Red = false ∧
    (dispatch c4WitState HEADER_RED_IFRAME).rx_colour = c4WitState.rx_colour ∧
    (dispatch c4WitState HEADER_RED_IFRAME).sframe_pending = some SFRAME_ACK :=
  (c4_duplicate_red_blue_dropped_but_acked c4WitState).1 rfl

/-- Claim C5: parsing a CRC-valid ACK frame (reaching `WantChecksumSecond`
with held frame type `HEADER_ACK` on a non-delimiter byte whose destuffed
value completes the stored checksum) clears the TX buffer, advances
`next_tx_colour` and moves TX to `Idle` exactly when the TX state was
`WaitingForAckNack`; in any other TX state the ACK leaves TX state, TX
buffer and `next_tx_colour` untouched.  (The RX side always empties its
buffer and returns to `WantFrameDelimiter`.) -/
theorem c5_ack_only_acts_in_wait_ack (s : Illyria) (cobs cf nb : Nat)
    (hst : s.rx_state = .WantChecksumSecond cobs HEADER_ACK cf)
    (hnz : nb ≠ 0)
    (hcrc : checksum_x25 s.rx_buffer = (cf <<< 8) ||| (check_cobs cobs nb).2) :
    run_rx s nb = some { s with
      rx_buffer := [],
      rx_state := .WantFrameDelimiter,
      tx_state := if isWaiting s.tx_state then .Idle else s.tx_state,
      tx_buffer := if isWaiting s.tx_state then [] else s.tx_buffer,
      next_tx_colour :=
        if isWaiting s.tx_state then s.next_tx_colour.next else s.next_tx_colour } := by
  have hb : (nb == 0) = false := by simp [hnz]
  cases htx : s.tx_state <;>
    simp [run_rx, hst, hb, dispatch, Checksum.validate, hcrc, isWaiting, htx,
      HEADER_ACK, HEADER_RED_IFRAME, HEADER_BLUE_IFRAME, HEADER_PURPLE_IFRAME,
      HEADER_NACK]

def c5WitState : Illyria :=
  { initIllyria 66 66 10 with
      rx_state := .WantChecksumSecond 2 HEADER_ACK 0x3C,
      rx_buffer := [2, 0],
      tx_state := .WaitingForAckNack 3,
      tx_buffer := [1, 1, 0, 0x85, 0xC8] }

/-- Witness for claim C5: the concrete tail of an ACK frame (final wire byte
0xF7 completing checksum 0x3CF7 over the received body [2, 0]) processed
while an I-frame awaits acknowledgement. -/
theorem c5_witness :
    run_rx c5WitState 0xF7 = some { c5WitState with
      rx_buffer := [],
      rx_state := .WantFrameDelimiter,
      tx_state := if isWaiting c5WitState.tx_state then .Idle else c5WitState.tx_state,
      tx_buffer := if isWaiting c5WitState.tx_state then [] else c5WitState.tx_buffer,
      next_tx_colour :=
        if isWaiting c5WitState.tx_state then c5WitState.next_tx_colour.next
        else c5WitState.next_tx_colour } :=
  c5_ack_only_acts_in_wait_ack c5WitState 2 0x3C 0xF7 rfl (by decide) (by decide)

lemma run_tx_steps_succ (k : Nat) (s : Illyria) :
    run_tx_steps (k + 1) s =
      ((run_tx_steps k (run_tx true s).1).1,
        (run_tx true s).2.1 ++ (run_tx_steps k (run_tx true s).1).2) :=
  rfl

lemma run_tx_steps_add (a b : Nat) (s : Illyria) :
    run_tx_steps (a + b) s =
      ((run_tx_steps b (run_tx_steps a s).1).1,
        (run_tx_steps a s).2 ++ (run_tx_steps b (run_tx_steps a s).1).2) := by
  induction a generalizing s with
  | zero => simp [run_tx_steps]
  | succ n ih =>
    have h1 : n + 1 + b = (n + b) + 1 := by omega
    rw [h1]
    simp [run_tx_steps, ih, List.append_assoc]

/-- Emitting the rest of a buffered I-frame: from `SendingPayload` at index
`sent` with `fuel + 1` bytes left, the machine writes exactly the COBS-stuffed
suffix of the buffer and arrives at `SendingDelimiterEnd`. -/
lemma run_tx_steps_payload (fuel : Nat) : ∀ (s : Illyria) (sent : Nat),
    s.tx_state = .SendingPayload .IFrame sent →
    sent + (fuel + 1) = s.tx_buffer.length →
    run_tx_steps (fuel + 1) s =
      ({ s with tx_state := .SendingDelimiterEnd .IFrame },
        stuffFrom s.tx_buffer (fuel + 1) sent) := by
  induction fuel with
  | zero =>
    intro s sent hst hlen
    have h1 : (sent + 1 == s.tx_buffer.length) = true := by
      simp
      omega
    simp [run_tx_steps, run_tx, hst, h1, stuffFrom]
  | succ n ih =>
    intro s sent hst hlen
    have h1 : (sent + 1 == s.tx_buffer.length) = false := by
      simp
      omega
    have hstep : run_tx true s =
        ({ s with tx_state := .SendingPayload .IFrame (sent + 1) },
          [if s.tx_buffer.getD sent 0 == 0 then
              cobs_find_zero (s.tx_buffer.drop (sent + 1)) + 1
            else s.tx_buffer.getD sent 0], false) := by
      simp [run_tx, hst, h1]
    have hrec := ih { s with tx_state := .SendingPayload .IFrame (sent + 1) }
      (sent + 1) rfl (by simp; omega)
    rw [run_tx_steps_succ, hstep]
    simp only
    rw [hrec]
    simp [stuffFrom]

/-- Emitting a buffered I-frame of `len` bytes from `SendingDelimiterStart`
takes `len + 3` successful write steps, produces exactly `frameWire` of the
buffer, and parks the machine in `WaitingForAckNack` with poll counter 0. -/
lemma run_tx_frame_emission (s : Illyria)
    (h : s.tx_state = .SendingDelimiterStart .IFrame) (hne : s.tx_buffer ≠ []) :
    run_tx_steps (s.tx_buffer.length + 3) s =
      ({ s with tx_state := .WaitingForAckNack 0 }, frameWire s.tx_buffer) := by
  obtain ⟨fuel, hfuel⟩ : ∃ f, s.tx_buffer.length = f + 1 := by
    cases hb : s.tx_buffer with
    | nil => exact absurd hb hne
    | cons a l => exact ⟨l.length, by simp [hb]⟩
  have hsplit : s.tx_buffer.length + 3 = 2 + ((fuel + 1) + 1) := by omega
  have h2 : run_tx_steps 2 s =
      ({ s with tx_state := .SendingPayload .IFrame 0 },
        [0, cobs_find_zero s.tx_buffer + 1]) := by
    simp [run_tx_steps, run_tx, h]
  have hpay := run_tx_steps_payload fuel
    { s with tx_state := .SendingPayload .IFrame 0 } 0 rfl (by simpa using hfuel.symm)
  have hlast : run_tx_steps 1
      { s with tx_state := .SendingDelimiterEnd .IFrame } =
      ({ s with tx_state := .WaitingForAckNack 0 }, [0]) := by
    simp [run_tx_steps, run_tx]
  rw [hsplit, run_tx_steps_add, h2]
  rw [run_tx_steps_add]
  simp only at hpay ⊢
  rw [hpay]
  simp only
  rw [hlast]
  simp [frameWire, hfuel]

/-- With TX idle, an empty TX buffer and no pending supervisory frame,
any number of `run_tx` calls writes nothing and changes nothing. -/
lemma run_tx_steps_idle_silent (k : Nat) : ∀ (s : Illyria),
    s.tx_state = .Idle → s.tx_buffer = [] → s.sframe_pending = none →
    run_tx_steps k s = (s, []) := by
  induction k with
  | zero => intro s _ _ _; rfl
  | succ n ih =>
    intro s h1 h2 h3
    have hstep : run_tx true s = (s, [], false) := by
      simp [run_tx, h1, h2, h3]
    simp [run_tx_steps, hstep, ih s h1 h2 h3]

/-- Claim C6: (1) each `run_tx` in `WaitingForAckNack` below the poll limit
increments the poll counter, writing nothing; (2) once the counter has
reached the configured poll limit, `run_tx` moves back to
`SendingDelimiterStart` for the I-frame with the TX buffer and
`next_tx_colour` unchanged (the whole record is unchanged except the TX
state); (3) emission from `SendingDelimiterStart` writes exactly
`frameWire tx_buffer` — a function of the unchanged buffer alone — so the
retransmission is byte-for-byte identical; (4) processing a valid ACK in
`WaitingForAckNack` leaves TX idle with an empty buffer and does not
schedule any supervisory frame; (5) from that quiescent situation any number
of further `run_tx` calls writes no bytes at all. -/
theorem c6_wait_ack_retry_and_silence :
    (∀ (s : Illyria) (n : Nat) (w : Bool),
      s.tx_state = .WaitingForAckNack n → n < s.poll_limit →
      run_tx w s = ({ s with tx_state := .WaitingForAckNack (n + 1) }, [], true)) ∧
    (∀ (s : Illyria) (n : Nat) (w : Bool),
      s.tx_state = .WaitingForAckNack n → s.poll_limit ≤ n →
      run_tx w s = ({ s with tx_state := .SendingDelimiterStart .IFrame }, [], false)) ∧
    (∀ (s : Illyria),
      s.tx_state = .SendingDelimiterStart .IFrame → s.tx_buffer ≠ [] →
      run_tx_steps (s.tx_buffer.length + 3) s =
        ({ s with tx_state := .WaitingForAckNack 0 }, frameWire s.tx_buffer)) ∧
    (∀ (s : Illyria) (n : Nat),
      s.tx_state = .WaitingForAckNack n →
      (dispatch s HEADER_ACK).tx_state = .Idle ∧
      (dispatch s HEADER_ACK).tx_buffer = [] ∧
      (dispatch s HEADER_ACK).sframe_pending = s.sframe_pending) ∧
    (∀ (s : Illyria) (k : Nat),
      s.tx_state = .Idle → s.tx_buffer = [] → s.sframe_pending = none →
      run_tx_steps k s = (s, [])) := by
  refine ⟨?_, ?_, ?_, ?_, ?_⟩
  · intro s n w h hlt
    simp [run_tx, h, Nat.not_le.mpr hlt]
  · intro s n w h hle
    simp [run_tx, h, hle]
  · intro s h hne
    exact run_tx_frame_emission s h hne
  · intro s n h
    simp [dispatch, h, HEADER_ACK, HEADER_RED_IFRAME, HEADER_BLUE_IFRAME,
      HEADER_PURPLE_IFRAME, HEADER_NACK]
  · intro s k h1 h2 h3
    exact run_tx_steps_idle_silent k s h1 h2 h3

def c6SWait : Illyria :=
  { initIllyria 66 66 10 with
      tx_state := .WaitingForAckNack 0, tx_buffer := [1, 1, 0, 0x85, 0xC8] }

def c6SWaitHi : Illyria := { c6SWait with tx_state := .WaitingForAckNack 10 }

def c6SStart : Illyria := { c6SWait with tx_state := .SendingDelimiterStart .IFrame }

/-- Witness for claim C6: each part instantiated on a concrete engine holding
the buffered frame [1, 1, 0, 0x85, 0xC8] with poll limit 10. -/
theorem c6_witness :
    run_tx true c6SWait = ({ c6SWait with tx_state := .WaitingForAckNack 1 }, [], true) ∧
    run_tx true c6SWaitHi =
      ({ c6SWaitHi with tx_state := .SendingDelimiterStart .IFrame }, [], false) ∧
    run_tx_steps (c6SStart.tx_buffer.length + 3) c6SStart =
      ({ c6SStart with tx_state := .WaitingForAckNack 0 }, frameWire c6SStart.tx_buffer) ∧
    (dispatch c6SWait HEADER_ACK).tx_state = .Idle ∧
    run_tx_steps 5 (initIllyria 66 66 10) = (initIllyria 66 66 10, []) :=
  ⟨c6_wait_ack_retry_and_silence.1 c6SWait 0 true rfl (by decide),
   c6_wait_ack_retry_and_silence.2.1 c6SWaitHi 10 true rfl (by decide),
   c6_wait_ack_retry_and_silence.2.2.1 c6SStart rfl (by decide),
   (c6_wait_ack_retry_and_silence.2.2.2.1 c6SWait 0 rfl).1,
   c6_wait_ack_retry_and_silence.2.2.2.2 (initIllyria 66 66 10) 5 rfl rfl rfl⟩

lemma sendAllowed_eq_not_iframeActive (t : TxState) : sendAllowed t = !iframeActive t := by
  cases t with
  | Idle => rfl
  | SendingDelimiterStart p => cases p <;> rfl
  | SendingCobsHeader p => cases p <;> rfl
  | SendingPayload p sent => cases p <;> rfl
  | SendingDelimiterEnd p => cases p <;> rfl
  | WaitingForAckNack n => rfl

lemma send_tx_state (s : Illyria) (m : List Nat) : (send s m).1.tx_state = s.tx_state := by
  by_cases hb : (s.tx_buffer.length != 0) = true
  · simp [send, hb]
  · by_cases hall : sendAllowed s.tx_state = true
    · by_cases hfit :
        m.length ≤ (resize_default s.tx_buffer s.tx_capacity).length - 2 - DATA_IDX
      · simp [send, hb, hall, hfit]
      · simp [send, hb, hall, hfit]
    · simp [send, hb, hall]

lemma send_blocked_id (s : Illyria) (m : List Nat) (h : iframeActive s.tx_state = true) :
    (send s m).1 = s := by
  have hall : sendAllowed s.tx_state = false := by
    rw [sendAllowed_eq_not_iframeActive, h]
    rfl
  unfold send
  split
  · rfl
  · simp [hall]

lemma run_tx_tx_buffer (w : Bool) (s : Illyria) :
    (run_tx w s).1.tx_buffer = s.tx_buffer := by
  cases htx : s.tx_state with
  | Idle =>
    by_cases hb : (s.tx_buffer.length != 0) = true
    · simp [run_tx, htx, hb]
    · cases hsf : s.sframe_pending <;> simp [run_tx, htx, hb, hsf]
  | SendingDelimiterStart p => cases w <;> simp [run_tx, htx]
  | SendingCobsHeader p => cases w <;> simp [run_tx, htx]
  | SendingPayload p sent =>
    cases w
    · simp [run_tx, htx]
    · simp only [run_tx, htx]
      repeat' split
      all_goals rfl
  | SendingDelimiterEnd p => cases w <;> cases p <;> simp [run_tx, htx]
  | WaitingForAckNack n =>
    by_cases hle : s.poll_limit ≤ n <;> simp [run_tx, htx, hle]

lemma run_tx_TxInv (w : Bool) (s : Illyria) (h : TxInv s) : TxInv (run_tx w s).1 := by
  intro hact
  rw [run_tx_tx_buffer w s]
  cases htx : s.tx_state with
  | Idle =>
    by_cases hb : (s.tx_buffer.length != 0) = true
    · simpa using hb
    · cases hsf : s.sframe_pending
      · simp [run_tx, htx, hb, hsf, iframeActive] at hact
      · simp [run_tx, htx, hb, hsf, iframeActive] at hact
  | SendingDelimiterStart p =>
    cases p with
    | IFrame => exact h (by rw [htx]; rfl)
    | SFrame f => cases w <;> simp [run_tx, htx, iframeActive] at hact
  | SendingCobsHeader p =>
    cases p with
    | IFrame => exact h (by rw [htx]; rfl)
    | SFrame f => cases w <;> simp [run_tx, htx, iframeActive] at hact
  | SendingPayload p sent =>
    cases p with
    | IFrame => exact h (by rw [htx]; rfl)
    | SFrame f =>
      cases w
      · simp [run_tx, htx, iframeActive] at hact
      · by_cases hlen : (sent + 1 == f.length) = true
        · simp [run_tx, htx, hlen, iframeActive] at hact
        · simp [run_tx, htx, hlen, iframeActive] at hact
  | SendingDelimiterEnd p =>
    cases p with
    | IFrame => exact h (by rw [htx]; rfl)
    | SFrame f => cases w <;> simp [run_tx, htx, iframeActive] at hact
  | WaitingForAckNack n => exact h (by rw [htx]; rfl)

lemma dispatch_tx_cases (s : Illyria) (f : Nat) :
    ((dispatch s f).tx_state = s.tx_state ∧ (dispatch s f).tx_buffer = s.tx_buffer) ∨
      (dispatch s f).tx_state = .Idle := by
  unfold dispatch
  split
  · dsimp only
    split <;> exact Or.inl ⟨rfl, rfl⟩
  · split
    · dsimp only
      split <;> exact Or.inl ⟨rfl, rfl⟩
    · split
      · dsimp only
        split <;> exact Or.inl ⟨rfl, rfl⟩
      · split
        · split
          · exact Or.inr rfl
          · exact Or.inl ⟨rfl, rfl⟩
        · split
          · split
            · exact Or.inr rfl
            · exact Or.inl ⟨rfl, rfl⟩
          · exact Or.inl ⟨rfl, rfl⟩

lemma run_rx_tx_cases (s : Illyria) (b : Nat) (s' : Illyria)
    (h : run_rx s b = some s') :
    (s'.tx_state = s.tx_state ∧ s'.tx_buffer = s.tx_buffer) ∨ s'.tx_state = .Idle := by
  unfold run_rx at h
  split at h
  · cases h
    exact Or.inl ⟨rfl, rfl⟩
  · split at h
    · cases h
      exact Or.inl ⟨rfl, rfl⟩
    · cases h
      exact Or.inl ⟨rfl, rfl⟩
    · rename_i cobs
      unfold rx_push at h
      split at h
      · simp only [Option.map_some'] at h
        cases h
        exact Or.inl ⟨rfl, rfl⟩
      · simp at h
    · rename_i cobs frame
      unfold rx_push at h
      split at h
      · simp only [Option.map_some'] at h
        split at h <;> (cases h; exact Or.inl ⟨rfl, rfl⟩)
      · simp at h
    · rename_i cobs frame length
      split at h
      · cases h
        exact Or.inl ⟨rfl, rfl⟩
      · unfold rx_push at h
        split at h
        · simp only [Option.map_some'] at h
          split at h <;> (cases h; exact Or.inl ⟨rfl, rfl⟩)
        · simp at h
    · cases h
      exact Or.inl ⟨rfl, rfl⟩
    · rename_i cobs frame csum_first heq
      dsimp only at h
      split at h
      · cases h
        rcases dispatch_tx_cases s frame with ⟨h1, h2⟩ | h1
        · exact Or.inl ⟨h1, h2⟩
        · exact Or.inr h1
      · cases h
        exact Or.inl ⟨rfl, rfl⟩

/-- Claim C8: `send` returns `PacketInFlight` exactly when an I-frame is
outstanding — a non-empty TX buffer, or a TX state in which an I-frame is
being emitted or awaiting ACK/NACK (`iframeActive`, which is the exact
complement of the accepting match arms of `send`).  With an empty buffer and
only a supervisory frame in flight (or idle) and a fitting message, `send`
succeeds and fills the TX buffer with the complete frame (payload plus 4
bytes of overhead). -/
theorem c8_packet_in_flight_iff (s : Illyria) (m : List Nat) :
    ((send s m).2 = .error .PacketInFlight ↔
      (s.tx_buffer ≠ [] ∨ iframeActive s.tx_state = true)) ∧
    (s.tx_buffer = [] → iframeActive s.tx_state = false →
      m.length ≤ s.tx_capacity - 4 →
      (send s m).2 = .ok () ∧ (send s m).1.tx_buffer.length = m.length + 4) := by
  constructor
  · by_cases hb : s.tx_buffer = []
    · by_cases ha : iframeActive s.tx_state = true
      · have hall : sendAllowed s.tx_state = false := by
          rw [sendAllowed_eq_not_iframeActive, ha]
          rfl
        simp [send, hb, hall, ha]
      · have hall : sendAllowed s.tx_state = true := by
          rw [sendAllowed_eq_not_iframeActive]
          simp only [Bool.not_eq_true] at ha
          rw [ha]
          rfl
        simp only [send, hb, List.length_nil, bne_self_eq_false, Bool.false_eq_true,
          if_false, hall, if_true]
        constructor
        · intro hcontra
          split at hcontra <;> simp at hcontra
        · intro hor
          rcases hor with h1 | h1
          · exact absurd rfl h1
          · exact absurd h1 ha
    · have hlen : (s.tx_buffer.length != 0) = true := by
        simp [hb]
      simp [send, hlen, hb]
  · intro hb ha hfit
    have hall : sendAllowed s.tx_state = true := by
      rw [sendAllowed_eq_not_iframeActive, ha]
      rfl
    have hrlen : (resize_default [] s.tx_capacity).length = s.tx_capacity := by
      simp [resize_default]
    have hcond : m.length ≤ (resize_default [] s.tx_capacity).length - 2 - DATA_IDX := by
      rw [hrlen]
      simp only [DATA_IDX]
      omega
    simp only [send, hb, List.length_nil, bne_self_eq_false, Bool.false_eq_true, if_false,
      hall, if_true, hcond]
    refine ⟨trivial, ?_⟩
    simp only [List.length_cons, List.length_append, List.length_cons, List.length_nil]

def c8WitState : Illyria :=
  { initIllyria 66 66 10 with tx_state := .SendingPayload (.SFrame SFRAME_ACK) 1 }

/-- Witness for claim C8: a fitting one-byte message submitted while an ACK
supervisory frame is mid-transmission succeeds and fills the TX buffer. -/
theorem c8_witness :
    (send c8WitState [3]).2 = .ok () ∧
    (send c8WitState [3]).1.tx_buffer.length = 1 + 4 :=
  (c8_packet_in_flight_iff c8WitState [3]).2 rfl rfl (by decide)

/-- Claim C9: the WaitingForAckNack invariant.  `TxInv` states that the TX
buffer is non-empty whenever an I-frame is outstanding (in particular in
`WaitingForAckNack`); it is preserved by `send`, `run_tx`, `run_rx` and
`reset`.  Moreover `run_tx` never modifies the TX buffer at all, `send` is a
complete no-op while waiting for ACK/NACK, and whenever `run_rx` leaves the
machine in `WaitingForAckNack` it has changed neither the TX buffer nor the
TX state — so in `WaitingForAckNack` the buffer still holds, byte for byte,
the I-frame whose emission entered that state. -/
theorem c9_wait_ack_buffer_invariant :
    (∀ (s : Illyria) (m : List Nat), TxInv s → TxInv (send s m).1) ∧
    (∀ (s : Illyria) (w : Bool), TxInv s → TxInv (run_tx w s).1) ∧
    (∀ (s : Illyria) (b : Nat) (s' : Illyria), TxInv s → run_rx s b = some s' → TxInv s') ∧
    (∀ (s : Illyria), TxInv s → TxInv (reset s)) ∧
    (∀ (s : Illyria) (w : Bool), (run_tx w s).1.tx_buffer = s.tx_buffer) ∧
    (∀ (s : Illyria) (m : List Nat) (n : Nat),
      s.tx_state = .WaitingForAckNack n → (send s m).1 = s) ∧
    (∀ (s : Illyria) (b : Nat) (s' : Illyria) (n : Nat), run_rx s b = some s' →
      s'.tx_state = .WaitingForAckNack n →
      s'.tx_buffer = s.tx_buffer ∧ s'.tx_state = s.tx_state) := by
  refine ⟨?_, ?_, ?_, ?_, ?_, ?_, ?_⟩
  · intro s m h hact
    by_cases ha : iframeActive s.tx_state = true
    · rw [send_blocked_id s m ha]
      exact h ha
    · rw [send_tx_state] at hact
      exact absurd hact ha
  · exact fun s w h => run_tx_TxInv w s h
  · intro s b s' h hrx hact
    rcases run_rx_tx_cases s b s' hrx with ⟨h1, h2⟩ | h1
    · rw [h2]
      exact h (h1 ▸ hact)
    · rw [h1] at hact
      simp [iframeActive] at hact
  · intro s h hact
    simp [reset, iframeActive] at hact
  · exact fun s w => run_tx_tx_buffer w s
  · intro s m n htx
    exact send_blocked_id s m (by rw [htx]; rfl)
  · intro s b s' n hrx hw
    rcases run_rx_tx_cases s b s' hrx with ⟨h1, h2⟩ | h1
    · exact ⟨h2, h1⟩
    · rw [h1] at hw
      simp at hw

def c9WitState : Illyria :=
  { initIllyria 66 66 10 with
      tx_state := .WaitingForAckNack 2, tx_buffer := [1, 1, 0, 0x85, 0xC8] }

/-- Witness for claim C9: the invariant transported through one `run_tx`
step of a concrete engine that is waiting for an ACK with its frame
buffered. -/
theorem c9_witness : TxInv (run_tx true c9WitState).1 :=
  c9_wait_ack_buffer_invariant.2.1 c9WitState true (by intro h; decide)

/-- A message whose postcard serialisation is 65 bytes — one byte more than
fits: with the reference capacity 66 the payload region holds 62 bytes
(capacity minus 4 bytes of frame overhead).  This is what
`Message::D([0u32; 16])` serialises to in the repository's own test. -/
def c7BigMsg : List Nat := List.replicate 65 0

/-- Claim C7 (code bug): `send` never returns `MessageTooLarge`.  For a
serialised payload of 65 > 62 = CAP - 4 bytes, `send` returns the external
serialiser's error (`Postcard`), not `MessageTooLarge` (that variant is
declared in `Error` but constructed nowhere in the source); and far from "no
frame is transmitted", the TX buffer is left resized to full capacity, so
the next `run_tx` from `Idle` starts emitting a garbage I-frame. -/
theorem c7_too_large_returns_postcard :
    (send (initIllyria 66 66 10) c7BigMsg).2 = .error .Postcard ∧
    (send (initIllyria 66 66 10) c7BigMsg).2 ≠ .error .MessageTooLarge ∧
    (send (initIllyria 66 66 10) c7BigMsg).1.tx_buffer.length = 66 ∧
    (run_tx true (send (initIllyria 66 66 10) c7BigMsg).1).1.tx_state =
      .SendingDelimiterStart .IFrame := by
  decide

lemma send_nonempty_in_flight (t : Illyria) (m2 : List Nat)
    (h : (t.tx_buffer.length != 0) = true) :
    (send t m2).2 = .error .PacketInFlight := by
  unfold send
  rw [if_pos h]

/-- Claim C10: whenever `send` fails with the serialiser error, the TX
buffer has been left resized to full capacity (`resize_default` is called
before serialisation and nothing restores the buffer on the error path);
consequently, since the capacity is positive, every subsequent `send`
returns `PacketInFlight` on its very first check, and a `run_tx` from
`Idle` sees a non-empty buffer and starts emitting it as an I-frame. -/
theorem c10_postcard_error_leaves_full_buffer (s : Illyria) (m m2 : List Nat) (w : Bool)
    (hcap : 0 < s.tx_capacity)
    (herr : (send s m).2 = .error .Postcard) :
    (send s m).1.tx_buffer.length = s.tx_capacity ∧
    (send (send s m).1 m2).2 = .error .PacketInFlight ∧
    (s.tx_state = .Idle →
      (run_tx w (send s m).1).1.tx_state = .SendingDelimiterStart .IFrame) := by
  by_cases hb : (s.tx_buffer.length != 0) = true
  · simp [send, hb] at herr
  · by_cases hall : sendAllowed s.tx_state = true
    · by_cases hfit :
        m.length ≤ (resize_default s.tx_buffer s.tx_capacity).length - 2 - DATA_IDX
      · simp [send, hb, hall, hfit] at herr
      · have hbe : s.tx_buffer = [] := by
          simpa using hb
        have heq : (send s m).1 =
            { s with tx_buffer := resize_default s.tx_buffer s.tx_capacity } := by
          simp [send, hb, hall, hfit]
        have hlen : (send s m).1.tx_buffer.length = s.tx_capacity := by
          rw [heq]
          simp only [hbe]
          simp [resize_default]
        refine ⟨hlen, ?_, ?_⟩
        · have hne : ((send s m).1.tx_buffer.length != 0) = true := by
            rw [hlen]
            simpa using Nat.pos_iff_ne_zero.mp hcap
          exact send_nonempty_in_flight (send s m).1 m2 hne
        · intro hidle
          have hts : (send s m).1.tx_state = .Idle := by
            rw [send_tx_state]
            exact hidle
          have hne : ((send s m).1.tx_buffer.length != 0) = true := by
            rw [hlen]
            simpa using Nat.pos_iff_ne_zero.mp hcap
          simp [run_tx, hts, hne]
    · simp [send, hb, hall] at herr

/-- Witness for claim C10: the 65-byte over-large message from the
repository test, with the reference capacity 66. -/
theorem c10_witness :
    (send (initIllyria 66 66 10) (List.replicate 65 0)).1.tx_buffer.length = 66 ∧
    (run_tx true (send (initIllyria 66 66 10) (List.replicate 65 0)).1).1.tx_state =
      .SendingDelimiterStart .IFrame :=
  ⟨(c10_postcard_error_leaves_full_buffer (initIllyria 66 66 10) (List.replicate 65 0)
      [3] true (by decide) (by decide)).1,
   (c10_postcard_error_leaves_full_buffer (initIllyria 66 66 10) (List.replicate 65 0)
      [3] true (by decide) (by decide)).2.2 rfl⟩
